import Mathlib

/-!
Verification of the Agora-Auth domain core (Rust) against its natural-language
specification, via a shallow embedding in Lean 4.

Modelling conventions:
- Rust `String` and `&str` values are embedded as `List Char` (`Str`).  Rust
  compares strings by their UTF-8 bytes; for valid UTF-8 that order coincides
  with lexicographic order on Unicode code points, which is what `strLt`
  implements, and `String::len` counts bytes, which `utf8Len` implements.
- `u32` and `u64` arithmetic is embedded as `Nat` arithmetic reduced modulo
  `2 ^ 32` or `2 ^ 64` at the operations where Rust release builds wrap, and
  `i64` values as `Int` with the `u64 -> i64` cast made explicit.
- The port traits (`IdentityRepository`, `CredentialRepository`,
  `PasswordHasher`, `SessionRepository`, `TokenService`) and the ambient
  clock / UUID generator are injected dependencies of the use cases; they are
  embedded as function-valued fields of an environment record per use case.
  Port mutations and other observable effects are recorded in an event trace
  returned alongside the use case's result, in call order.
- Each use case reads the clock at most a handful of times within one
  synchronous call; the embedding supplies one `now` value per call.
-/

deriving instance DecidableEq for Except

set_option maxRecDepth 20000

namespace AgoraAuth

/-- Rust strings embedded as lists of characters. -/
abbrev Str := List Char

/-- Embed a Lean string literal into the model's string type. -/
def str (s : String) : Str := s.data

/-- Lexicographic strict order on embedded strings: the meaning of Rust's
`<` on `String` / `&str` (byte order on UTF-8, equivalently code-point
order). -/
def strLt : Str → Str → Bool
  | [], [] => false
  | [], _ :: _ => true
  | _ :: _, [] => false
  | a :: as, b :: bs =>
    if a < b then true
    else if b < a then false
    else strLt as bs

/-- Rust `>=` on strings: the negation of `<` (the order is total). -/
def strGe (a b : Str) : Bool := !strLt a b

/-- Number of UTF-8 bytes of an embedded string: Rust `str::len`. -/
def utf8Len (s : Str) : Nat := (s.map Char.utf8Size).sum

/-- Fuel-driven worker for `natToStr`; the fuel bounds the number of
digits, so `natToStr` never runs out. -/
def natToStrAux : Nat → Nat → Str
  | 0, _ => []
  | fuel + 1, n =>
    if n < 10 then [Char.ofNat (48 + n)]
    else natToStrAux fuel (n / 10) ++ [Char.ofNat (48 + n % 10)]

/-- Decimal rendering of a natural number, as Rust's `Display` for unsigned
integers (used by `format!`). -/
def natToStr (n : Nat) : Str := natToStrAux (n + 1) n

/-- Decimal rendering of an integer, as Rust's `Display` for `i64`. -/
def intToStr : Int → Str
  | .ofNat n => natToStr n
  | .negSucc n => '-' :: natToStr (n + 1)

/-- The Rust cast `as i64` applied to a `u64` quantity (wraps into the
signed 64-bit range). -/
def u64ToI64 (n : Nat) : Int :=
  if n % 2 ^ 64 < 2 ^ 63 then (n % 2 ^ 64 : Int) else (n % 2 ^ 64 : Int) - 2 ^ 64

/-- `stripPrefixL p l` returns the remainder of `l` after `p` when `p` is a
prefix of `l`. -/
def stripPrefixL : Str → Str → Option Str
  | [], rest => some rest
  | _ :: _, [] => none
  | p :: ps, c :: cs => if p = c then stripPrefixL ps cs else none

/-- Fuel-driven worker for `splitOnStr`; the fuel is an upper bound on the
number of characters still to scan, so it never runs out when called with
`length + 1`. -/
def splitGo (sep : Str) : Nat → Str → Str → List Str
  | 0, l, acc => [acc.reverse ++ l]
  | _ + 1, [], acc => [acc.reverse]
  | fuel + 1, c :: cs, acc =>
    match stripPrefixL sep (c :: cs) with
    | some rest => acc.reverse :: splitGo sep fuel rest []
    | none => splitGo sep fuel cs (c :: acc)

/-- Rust `str::split` with a non-empty string pattern: the list of segments
between non-overlapping, leftmost-first occurrences of `sep` in `s` (always
non-empty; empty segments are kept). -/
def splitOnStr (s sep : Str) : List Str := splitGo sep (s.length + 1) s []

/-- Rust `str::trim`: remove leading and trailing whitespace (the model uses
ASCII whitespace, which covers every string the code builds or parses). -/
def trimStr (s : Str) : Str :=
  ((s.dropWhile Char.isWhitespace).reverse.dropWhile Char.isWhitespace).reverse

/-- Rust `str::parse::<i64>`: an optional sign followed by at least one
ASCII digit, with values outside the `i64` range rejected. -/
def parseI64 (s : Str) : Option Int :=
  let signDigits : Int × Str :=
    match s with
    | '-' :: rest => (-1, rest)
    | '+' :: rest => (1, rest)
    | _ => (1, s)
  let digits := signDigits.2
  if digits.isEmpty then none
  else if digits.all Char.isDigit then
    let mag : Nat := digits.foldl (fun acc c => acc * 10 + (c.toNat - 48)) 0
    let v : Int := signDigits.1 * Int.ofNat mag
    if -(2 ^ 63) ≤ v ∧ v ≤ 2 ^ 63 - 1 then some v else none
  else none

/-! ## Error taxonomy (src/core/error) -/

/-- `AuthenticationError` (src/core/error/authentication_error.rs). -/
inductive AuthenticationError where
  | userNotFound (reason : Str)
  | maxAttemptsExceeded (attempts : Nat)
  | unsupportedAuthMethod (method : Str)
  | incompleteFlow (stage : Str)
  | accountLocked (reason : Str)
  | externalProviderRejected (provider : Str) (reason : Str)
  deriving DecidableEq

/-- `CredentialError` (src/core/error/credential_error.rs). -/
inductive CredentialError where
  | missingRequired (field : Str)
  | invalidFormat (credential_type : Str) (reason : Str)
  | expired (expired_at : Str)
  | notYetValid (valid_from : Str)
  | typeMismatch (expected : Str) (actual : Str)
  | verificationFailed (reason : Str)
  | revoked (revoked_at : Str)
  | insufficientStrength (reason : Str)
  deriving DecidableEq

/-- `TokenError` (src/core/error/token_error.rs). -/
inductive TokenError where
  | malformed (reason : Str)
  | signatureInvalid (reason : Str)
  | invalidClaims (reason : Str)
  | expired (expired_at : Str)
  | notYetValid (valid_from : Str)
  | issuerMismatch (expected : Str) (actual : Str)
  | audienceMismatch (expected : Str) (actual : Str)
  | revoked (revoked_at : Str)
  | unsupportedAlgorithm (algorithm : Str)
  | keyIdNotFound (kid : Str)
  deriving DecidableEq

/-- `InvariantError` (src/core/error/invariant_error.rs). -/
inductive InvariantError where
  | assertionFailed (condition : Str) (context : Str)
  | dependencyUnavailable (dependency : Str) (reason : Str)
  | inconsistentState (description : Str)
  | invalidConfiguration (reason : Str)
  | unreachableCode (location : Str)
  | violated (description : Str)
  deriving DecidableEq

/-- `CoreError` (src/core/error/mod.rs): the sum of the four error kinds. -/
inductive CoreError where
  | authentication (err : AuthenticationError)
  | credential (err : CredentialError)
  | token (err : TokenError)
  | invariant (err : InvariantError)
  deriving DecidableEq

/-! ## Credential vocabulary (src/core/credentials) -/

/-- `StoredCredential` (src/core/credentials/stored_credential.rs).  The
`failed_attempts` field is a `u32`; adapters always supply a value below
`2 ^ 32`. -/
structure StoredCredential where
  repr : Str
  failed_attempts : Nat
  locked_until : Option Str
  deriving DecidableEq

/-- `CredentialPolicy` (src/core/credentials/credential_policy.rs). -/
structure CredentialPolicy where
  min_length : Nat
  require_complexity : Bool
  format_check : Option (Str → Bool)
  entropy_note : Option Str

/-- `RawCredential` (src/core/credentials/raw_credential.rs). -/
structure RawCredential where
  secret : Str

/-- `RawCredential::validate` (src/core/credentials/raw_credential.rs,
lines 42-67): empty-secret check, minimum byte length, optional format
check, and the documentation-only entropy note. -/
def RawCredential.validate (c : RawCredential) (policy : CredentialPolicy) :
    Except CredentialError Unit :=
  if c.secret.isEmpty then
    .error (.missingRequired (str "secret"))
  else if utf8Len c.secret < policy.min_length then
    .error (.insufficientStrength (str "minimum length is " ++ natToStr policy.min_length))
  else
    match policy.format_check with
    | some check =>
      if !check c.secret then
        .error (.invalidFormat (str "credential") (str "format check failed"))
      else
        match policy.entropy_note with
        | some _ => .ok ()
        | none => .ok ()
    | none =>
      match policy.entropy_note with
      | some _ => .ok ()
      | none => .ok ()

/-! ## Identity and token vocabulary -/

/-- `UserIdentity` (src/core/identity/user_identity.rs): an opaque id
wrapper, equal by id. -/
structure UserIdentity where
  id : Str
  deriving DecidableEq

/-- `Token` (src/core/token/token.rs): an opaque string wrapper, equal by
value. -/
structure Token where
  value : Str
  deriving DecidableEq

/-- `Session` (src/core/usecases/ports/session_repository.rs): the port's
opaque session type; its fields are omitted in the source. -/
structure Session

/-- `TokenLifetime` (src/core/token/token_lifetime.rs): RFC3339 timestamps
compared lexicographically. -/
structure TokenLifetime where
  issued_at : Str
  expires_at : Str
  not_before : Option Str
  deriving DecidableEq

/-- `TokenLifetime::new` (token_lifetime.rs, lines 44-50). -/
def TokenLifetime.new (issued_at expires_at : Str) : TokenLifetime :=
  { issued_at := issued_at, expires_at := expires_at, not_before := none }

/-- `TokenLifetime::with_not_before` (token_lifetime.rs, lines 53-56). -/
def TokenLifetime.with_not_before (L : TokenLifetime) (not_before : Str) : TokenLifetime :=
  { L with not_before := some not_before }

/-- `TokenLifetime::is_expired` (token_lifetime.rs, lines 73-75):
`reference_time >= self.expires_at`. -/
def TokenLifetime.is_expired (L : TokenLifetime) (reference_time : Str) : Bool :=
  strGe reference_time L.expires_at

/-- `TokenLifetime::is_not_yet_valid` (token_lifetime.rs, lines 100-114):
before `issued_at`, or before `not_before` when that is set. -/
def TokenLifetime.is_not_yet_valid (L : TokenLifetime) (reference_time : Str) : Bool :=
  if strLt reference_time L.issued_at then true
  else
    match L.not_before with
    | some nb => if strLt reference_time nb then true else false
    | none => false

/-- `TokenLifetime::is_temporally_valid` (token_lifetime.rs, lines
125-127). -/
def TokenLifetime.is_temporally_valid (L : TokenLifetime) (reference_time : Str) : Bool :=
  !L.is_expired reference_time && !L.is_not_yet_valid reference_time

/-! ## Use case: AuthenticateUser (src/core/usecases/authenticate_user.rs)

The use case's injected dependencies (`IdentityRepository::find_by_identifier`,
`CredentialRepository::get_by_user_id`, `PasswordHasher::verify`), its two
policy numbers (`max_attempts`, `lockout_duration_minutes`, both `u32`), and
the ambient clock are gathered in `AuthEnv`.  `now` is the RFC3339 rendering
of `chrono::Utc::now()`; `addMinutes now m` stands for
`(chrono::Utc::now() + Duration::minutes(m)).to_rfc3339()`.  Calls to
`PasswordHasher::verify` and to the two `CredentialRepository` mutations are
recorded in an `AuthEvent` trace in call order. -/

structure AuthEnv where
  find_by_identifier : Str → Option UserIdentity
  get_by_user_id : Str → Option StoredCredential
  verify : Str → StoredCredential → Bool
  now : Str
  addMinutes : Str → Nat → Str
  max_attempts : Nat
  lockout_duration_minutes : Nat

/-- Observable port calls made by `AuthenticateUser::execute`. -/
inductive AuthEvent where
  | verify (password : Str) (cred : StoredCredential)
  | updateFailedAttempts (user_id : Str) (attempts : Nat)
  | lockUntil (user_id : Str) (untilTs : Str)
  deriving DecidableEq

/-- `AuthenticateUserInput` (authenticate_user.rs, lines 17-20). -/
structure AuthenticateUserInput where
  identifier : Str
  password : Str

/-- `AuthenticateUserOutput` (authenticate_user.rs, lines 23-26). -/
structure AuthenticateUserOutput where
  user : UserIdentity
  deriving DecidableEq

/-- Step 3 of `AuthenticateUser::execute` (authenticate_user.rs, lines
68-80): returns the lock timestamp when a credential is present, carries a
`locked_until`, and that timestamp is strictly in the future
(`locked_until > now`, string comparison). -/
def lockCheckTs (now : Str) (credential : Option StoredCredential) : Option Str :=
  match credential with
  | some cred =>
    match cred.locked_until with
    | some lu => if strLt now lu then some lu else none
    | none => none
  | none => none

/-- `AuthenticateUser::execute` (authenticate_user.rs, lines 56-113).  The
`u32` increment of `failed_attempts` wraps modulo `2 ^ 32` as in a Rust
release build. -/
def AuthenticateUser.execute (env : AuthEnv) (input : AuthenticateUserInput) :
    Except CoreError AuthenticateUserOutput × List AuthEvent :=
  match env.find_by_identifier input.identifier with
  | none => (.error (.authentication (.userNotFound (str "identifier not found"))), [])
  | some user =>
    let credential := env.get_by_user_id user.id
    match lockCheckTs env.now credential with
    | some lu =>
      (.error (.authentication (.accountLocked (str "account locked until " ++ lu))), [])
    | none =>
      let verifyTrace : List AuthEvent :=
        match credential with
        | some cred => [.verify input.password cred]
        | none => []
      let password_valid : Bool :=
        match credential with
        | some cred => env.verify input.password cred
        | none => false
      if password_valid then
        (.ok { user := user }, verifyTrace ++ [.updateFailedAttempts user.id 0])
      else
        let new_attempts : Nat :=
          match credential with
          | some c => (c.failed_attempts + 1) % 2 ^ 32
          | none => 1
        let lockTrace : List AuthEvent :=
          if env.max_attempts ≤ new_attempts then
            [.lockUntil user.id (env.addMinutes env.now env.lockout_duration_minutes)]
          else []
        (.error (.authentication (.userNotFound (str "invalid credentials"))),
          verifyTrace ++ [.updateFailedAttempts user.id new_attempts] ++ lockTrace)

/-- The password-verification outcome of step 4 of
`AuthenticateUser::execute` for a given environment: absence of a stored
credential counts as failure. -/
def passwordValidOf (env : AuthEnv) (input : AuthenticateUserInput) (user : UserIdentity) : Bool :=
  match env.get_by_user_id user.id with
  | some cred => env.verify input.password cred
  | none => false

/-- The `PasswordHasher::verify` calls step 4 makes (one when a credential
exists, none otherwise). -/
def verifyTraceOf (env : AuthEnv) (input : AuthenticateUserInput) (user : UserIdentity) :
    List AuthEvent :=
  match env.get_by_user_id user.id with
  | some cred => [.verify input.password cred]
  | none => []

/-- The failed-attempt count written on a failed verification: previous
count plus one in wrapping `u32` arithmetic, one when no credential record
exists. -/
def newAttemptsOf (env : AuthEnv) (user : UserIdentity) : Nat :=
  match env.get_by_user_id user.id with
  | some c => (c.failed_attempts + 1) % 2 ^ 32
  | none => 1

/-- Whether a use-case result is an `AuthenticationError::UserNotFound`. -/
def isUserNotFound {α : Type} : Except CoreError α → Bool
  | .error (.authentication (.userNotFound _)) => true
  | _ => false

/-- Whether a use-case result is any `AuthenticationError`. -/
def isAuthenticationError {α : Type} : Except CoreError α → Bool
  | .error (.authentication _) => true
  | _ => false

/-! ## Use case: RefreshSession (src/core/usecases/refresh_session.rs)

`RefreshEnv` gathers the injected `SessionRepository` / `TokenService`
operations, the configuration (`access_token_ttl_seconds : u64`,
`rotate_refresh_tokens`), the clock (`now` is
`chrono::Utc::now().timestamp()`), and the private `hash_token` helper,
which feeds `token.value()` through `std`'s `DefaultHasher` — a fixed
function of the token value, kept abstract here.  Token issuance calls are
recorded in a trace in call order. -/

structure RefreshEnv where
  validate_refresh_token : Token → Except Unit Str
  issue_access_token : Str → Str → Token
  issue_refresh_token : Str → Str → Token
  find_by_refresh_token_hash : Str → Option Session
  hash_token : Str → Str
  now : Int
  access_token_ttl_seconds : Nat
  rotate_refresh_tokens : Bool

/-- `TokenService` issuance calls made by `RefreshSession::execute`. -/
inductive RefreshEvent where
  | issueAccess (subject : Str) (claims : Str)
  | issueRefresh (subject : Str) (claims : Str)
  deriving DecidableEq

/-- `RefreshSessionInput` (refresh_session.rs, lines 18-20). -/
structure RefreshSessionInput where
  refresh_token : Token

/-- `RefreshSessionOutput` (refresh_session.rs, lines 23-29). -/
structure RefreshSessionOutput where
  access_token : Token
  refresh_token : Option Token
  token_type : Str
  expires_in : Nat
  deriving DecidableEq

/-- `RefreshSession::extract_user_id` (refresh_session.rs, lines 109-117):
segment 1 of the split on `"sub":"`, cut at the next quote (Rust's
`split('"').next()` always yields the first segment). -/
def RefreshSession.extract_user_id (claims : Str) : Option Str :=
  match (splitOnStr claims (str "\"sub\":\""))[1]? with
  | some seg => some ((splitOnStr seg (str "\"")).headD [])
  | none => none

/-- `RefreshSession::build_access_claims` (refresh_session.rs, lines
119-125). -/
def RefreshSession.build_access_claims (env : RefreshEnv) (user_id : Str) : Str :=
  str "\x7b\"sub\":\"" ++ user_id ++ str "\",\"type\":\"access\",\"exp\":"
    ++ intToStr (env.now + u64ToI64 env.access_token_ttl_seconds) ++ str "\x7d"

/-- `RefreshSession::execute` (refresh_session.rs, lines 56-107). -/
def RefreshSession.execute (env : RefreshEnv) (input : RefreshSessionInput) :
    Except CoreError RefreshSessionOutput × List RefreshEvent :=
  match env.validate_refresh_token input.refresh_token with
  | .error _ => (.error (.token (.signatureInvalid (str "refresh token validation failed"))), [])
  | .ok claims =>
    match RefreshSession.extract_user_id claims with
    | none => (.error (.token (.invalidClaims (str "missing subject claim"))), [])
    | some user_id =>
      let refresh_token_hash := env.hash_token input.refresh_token.value
      match env.find_by_refresh_token_hash refresh_token_hash with
      | none => (.error (.authentication (.userNotFound (str "session not found"))), [])
      | some _session =>
        let access_claims := RefreshSession.build_access_claims env user_id
        let access_token := env.issue_access_token user_id access_claims
        if env.rotate_refresh_tokens then
          let new_token := env.issue_refresh_token user_id claims
          (.ok { access_token := access_token, refresh_token := some new_token,
                 token_type := str "Bearer", expires_in := env.access_token_ttl_seconds },
           [.issueAccess user_id access_claims, .issueRefresh user_id claims])
        else
          (.ok { access_token := access_token, refresh_token := none,
                 token_type := str "Bearer", expires_in := env.access_token_ttl_seconds },
           [.issueAccess user_id access_claims])

/-! ## Use case: IssueSession (src/core/usecases/issue_session.rs)

`IssueEnv` gathers the injected `TokenService` operations, the private
`DefaultHasher`-based `hash_token` helper, the configuration
(`access_token_ttl_seconds`, `refresh_token_ttl_days`, both `u64`), the
clock (`now` is `chrono::Utc::now().timestamp()`, `now_rfc3339` its RFC3339
rendering) and the UUID v7 value `gen_session_id` produced by the
session-id generation step.  All `TokenService` and `SessionRepository`
calls and the id-generation step are recorded in a trace in call order. -/

structure IssueEnv where
  issue_access_token : Str → Str → Token
  issue_refresh_token : Str → Str → Token
  hash_token : Str → Str
  now : Int
  now_rfc3339 : Str
  gen_session_id : Str
  access_token_ttl_seconds : Nat
  refresh_token_ttl_days : Nat

/-- Observable steps of `IssueSession::execute`, in call order. -/
inductive IssueEvent where
  | issueAccess (subject : Str) (claims : Str)
  | issueRefresh (subject : Str) (claims : Str)
  | createSession (user : UserIdentity) (refresh_token_hash : Str) (metadata : Str)
  | genSessionId (session_id : Str)
  deriving DecidableEq

/-- `IssueSessionInput` (issue_session.rs, lines 19-23). -/
structure IssueSessionInput where
  user : UserIdentity
  ip_address : Str
  user_agent : Str

/-- `IssueSessionOutput` (issue_session.rs, lines 26-31). -/
structure IssueSessionOutput where
  access_token : Token
  refresh_token : Token
  session_id : Str
  expires_in : Nat
  deriving DecidableEq

/-- `IssueSession::build_access_claims` (issue_session.rs, lines 94-101). -/
def IssueSession.build_access_claims (env : IssueEnv) (user : UserIdentity) : Str :=
  str "\x7b\"sub\":\"" ++ user.id ++ str "\",\"type\":\"access\",\"exp\":"
    ++ intToStr (env.now + u64ToI64 env.access_token_ttl_seconds) ++ str "\x7d"

/-- `IssueSession::build_refresh_claims` (issue_session.rs, lines 103-110);
the `u64` product `refresh_token_ttl_days * 86400` wraps before the `i64`
cast. -/
def IssueSession.build_refresh_claims (env : IssueEnv) (user : UserIdentity) : Str :=
  str "\x7b\"sub\":\"" ++ user.id ++ str "\",\"type\":\"refresh\",\"exp\":"
    ++ intToStr (env.now + u64ToI64 (env.refresh_token_ttl_days * 86400)) ++ str "\x7d"

/-- `IssueSession::build_session_metadata` (issue_session.rs, lines
112-120). -/
def IssueSession.build_session_metadata (env : IssueEnv) (input : IssueSessionInput) : Str :=
  str "\x7b\"ip\":\"" ++ input.ip_address ++ str "\",\"ua\":\"" ++ input.user_agent
    ++ str "\",\"created\":\"" ++ env.now_rfc3339 ++ str "\"\x7d"

/-- `IssueSession::execute` (issue_session.rs, lines 58-92). -/
def IssueSession.execute (env : IssueEnv) (input : IssueSessionInput) :
    Except CoreError IssueSessionOutput × List IssueEvent :=
  let access_claims := IssueSession.build_access_claims env input.user
  let access_token := env.issue_access_token input.user.id access_claims
  let refresh_claims := IssueSession.build_refresh_claims env input.user
  let refresh_token := env.issue_refresh_token input.user.id refresh_claims
  let refresh_token_hash := env.hash_token refresh_token.value
  let metadata := IssueSession.build_session_metadata env input
  let session_id := env.gen_session_id
  (.ok { access_token := access_token, refresh_token := refresh_token,
         session_id := session_id, expires_in := env.access_token_ttl_seconds },
   [.issueAccess input.user.id access_claims,
    .issueRefresh input.user.id refresh_claims,
    .createSession input.user refresh_token_hash metadata,
    .genSessionId session_id])

/-! ## Use case: RevokeSession (src/core/usecases/revoke_session.rs) -/

structure RevokeEnv where
  find_by_refresh_token_hash : Str → Option Session

/-- `SessionRepository::revoke_session` calls made by
`RevokeSession::execute`.  The port call returns nothing, so the use case
succeeds regardless of the session's prior state (idempotence). -/
inductive RevokeEvent where
  | revokeSession (session_id : Str)
  deriving DecidableEq

/-- `RevokeSessionInput` (revoke_session.rs, lines 14-17). -/
structure RevokeSessionInput where
  session_id : Option Str
  refresh_token_hash : Option Str

/-- `RevokeSessionOutput` (revoke_session.rs, lines 21-24). -/
structure RevokeSessionOutput where
  revoked : Bool
  session_id : Option Str
  deriving DecidableEq

/-- `RevokeSession::execute` (revoke_session.rs, lines 38-67). -/
def RevokeSession.execute (env : RevokeEnv) (input : RevokeSessionInput) :
    Except CoreError RevokeSessionOutput × List RevokeEvent :=
  match input.session_id with
  | some sid => (.ok { revoked := true, session_id := some sid }, [.revokeSession sid])
  | none =>
    match input.refresh_token_hash with
    | some hash =>
      match env.find_by_refresh_token_hash hash with
      | none => (.error (.authentication (.userNotFound (str "session not found"))), [])
      | some _ =>
        (.error (.authentication (.userNotFound
          (str "session lookup by token hash not yet implemented - provide session_id directly"))), [])
    | none =>
      (.error (.invariant (.violated
        (str "either session_id or refresh_token_hash must be provided"))), [])

/-! ## Use case: ValidateAccessToken (src/core/usecases/validate_access_token.rs)

`ValidateEnv` gathers the injected `TokenService::validate_access_token`
and the clock (`now` is `chrono::Utc::now().timestamp()`). -/

structure ValidateEnv where
  validate_access_token : Token → Except Unit Str
  now : Int

/-- `ValidateAccessTokenInput` (validate_access_token.rs, lines 16-18). -/
structure ValidateAccessTokenInput where
  access_token : Token

/-- `ValidateAccessTokenOutput` (validate_access_token.rs, lines 21-26). -/
structure ValidateAccessTokenOutput where
  valid : Bool
  user_id : Option Str
  session_id : Option Str
  reason : Option Str
  deriving DecidableEq

/-- `ValidateAccessToken::extract_user_id` (validate_access_token.rs, lines
88-94). -/
def ValidateAccessToken.extract_user_id (claims : Str) : Option Str :=
  match (splitOnStr claims (str "\"sub\":\""))[1]? with
  | some seg => some ((splitOnStr seg (str "\"")).headD [])
  | none => none

/-- `ValidateAccessToken::extract_session_id` (validate_access_token.rs,
lines 96-102). -/
def ValidateAccessToken.extract_session_id (claims : Str) : Option Str :=
  match (splitOnStr claims (str "\"sid\":\""))[1]? with
  | some seg => some ((splitOnStr seg (str "\"")).headD [])
  | none => none

/-- `ValidateAccessToken::extract_token_type` (validate_access_token.rs,
lines 104-110). -/
def ValidateAccessToken.extract_token_type (claims : Str) : Option Str :=
  match (splitOnStr claims (str "\"type\":\""))[1]? with
  | some seg => some ((splitOnStr seg (str "\"")).headD [])
  | none => none

/-- The `exp`-claim extraction inside `ValidateAccessToken::is_expired`
(validate_access_token.rs, lines 113-124): segment 1 of the split on
`"exp":`, cut at the first comma or closing brace (Rust's
`split(predicate).next()` always yields the first segment, so the
`unwrap_or` branch is dead), trimmed and parsed as `i64`. -/
def ValidateAccessToken.extract_exp (claims : Str) : Option Int :=
  match (splitOnStr claims (str "\"exp\":"))[1]? with
  | some exp_part =>
    parseI64 (trimStr (exp_part.takeWhile (fun c => !(c = ',' || c = '\x7d'))))
  | none => none

/-- `ValidateAccessToken::is_expired` (validate_access_token.rs, lines
112-126): `now > exp` when an `exp` value parses, and `true` — fail closed
— when none does. -/
def ValidateAccessToken.is_expired (claims : Str) (now : Int) : Bool :=
  match ValidateAccessToken.extract_exp claims with
  | some exp => decide (exp < now)
  | none => true

/-- `ValidateAccessToken::execute` (validate_access_token.rs, lines
40-86). -/
def ValidateAccessToken.execute (env : ValidateEnv) (input : ValidateAccessTokenInput) :
    Except CoreError ValidateAccessTokenOutput :=
  match env.validate_access_token input.access_token with
  | .error _ =>
    .ok { valid := false, user_id := none, session_id := none,
          reason := some (str "token signature invalid") }
  | .ok claims =>
    let user_id := ValidateAccessToken.extract_user_id claims
    let session_id := ValidateAccessToken.extract_session_id claims
    if ValidateAccessToken.extract_token_type claims ≠ some (str "access") then
      .ok { valid := false, user_id := user_id, session_id := session_id,
            reason := some (str "invalid token type") }
    else if ValidateAccessToken.is_expired claims env.now then
      .ok { valid := false, user_id := user_id, session_id := session_id,
            reason := some (str "token expired") }
    else
      .ok { valid := true, user_id := user_id, session_id := session_id, reason := none }

/-! ## Concrete environments used by witnesses and counterexamples -/

/-- A concrete `AuthenticateUser` environment: user `alice` exists with id
`u1`, her credential has 2 failed attempts and no lock, passwords never
verify, `max_attempts = 3`, `lockout_duration_minutes = 15`. -/
def authFailEnv : AuthEnv :=
  { find_by_identifier := fun ident => if ident = str "alice" then some ⟨str "u1"⟩ else none
  , get_by_user_id := fun _ => some ⟨str "h", 2, none⟩
  , verify := fun _ _ => false
  , now := str "2026-01-01T00:00:00Z"
  , addMinutes := fun now m => now ++ '+' :: natToStr m
  , max_attempts := 3
  , lockout_duration_minutes := 15 }

/-- The concrete `AuthenticateUser` input used with the environments
above. -/
def authInput : AuthenticateUserInput := ⟨str "alice", str "pw"⟩

/-- `authFailEnv` with the stored failed-attempt counter at the `u32`
maximum `4294967295`. -/
def authWrapEnv : AuthEnv :=
  { authFailEnv with get_by_user_id := fun _ => some ⟨str "h", 4294967295, none⟩ }

/-- `authFailEnv` with an active lock until `2026-01-01T00:15:00Z` (later
than `now`) and a password hasher that accepts the supplied password. -/
def authLockedEnv : AuthEnv :=
  { authFailEnv with
    get_by_user_id := fun _ => some ⟨str "h", 3, some (str "2026-01-01T00:15:00Z")⟩,
    verify := fun _ _ => true }

/-- `authFailEnv` with a password hasher that accepts the supplied
password (and a previously non-zero failed-attempt count). -/
def authOkEnv : AuthEnv := { authFailEnv with verify := fun _ _ => true }

/-- `authFailEnv` with no user for any identifier. -/
def authMissingEnv : AuthEnv := { authFailEnv with find_by_identifier := fun _ => none }

/-- A concrete refresh-claims string carrying subject `u1`. -/
def refreshClaims0 : Str := str "\x7b\"sub\":\"u1\",\"type\":\"refresh\",\"exp\":900\x7d"

/-- A concrete `RefreshSession` environment with rotation enabled whose
token service returns the fixed token value `rt0` for every refresh
issuance. -/
def refreshRotEnv : RefreshEnv :=
  { validate_refresh_token := fun _ => .ok refreshClaims0
  , issue_access_token := fun _ _ => Token.mk (str "acc")
  , issue_refresh_token := fun _ _ => Token.mk (str "rt0")
  , find_by_refresh_token_hash := fun _ => some Session.mk
  , hash_token := fun v => v
  , now := 0
  , access_token_ttl_seconds := 900
  , rotate_refresh_tokens := true }

/-- The concrete `RefreshSession` input: the refresh token value is `rt0`,
the same value `refreshRotEnv`'s token service issues. -/
def refreshInput0 : RefreshSessionInput := ⟨Token.mk (str "rt0")⟩

/-- `refreshRotEnv` with rotation disabled. -/
def refreshNoRotEnv : RefreshEnv := { refreshRotEnv with rotate_refresh_tokens := false }

/-- A concrete `ValidateAccessToken` environment: the token service accepts
every token with `access`-typed claims whose `exp` (100) is before `now`
(200). -/
def validateExpiredEnv : ValidateEnv :=
  { validate_access_token := fun _ =>
      .ok (str "\x7b\"sub\":\"u1\",\"type\":\"access\",\"exp\":100\x7d")
  , now := 200 }

/-- A concrete `ValidateAccessToken` environment whose accepted claims
carry no `exp` field at all. -/
def validateNoExpEnv : ValidateEnv :=
  { validate_access_token := fun _ => .ok (str "\x7b\"sub\":\"u1\",\"type\":\"access\"\x7d")
  , now := 200 }

/-- A concrete `RevokeSession` environment with no session for any hash. -/
def revokeEnv0 : RevokeEnv := ⟨fun _ => none⟩

/-- A concrete `IssueSession` environment. -/
def issueEnv0 : IssueEnv :=
  { issue_access_token := fun _ _ => Token.mk (str "acc")
  , issue_refresh_token := fun _ _ => Token.mk (str "ref")
  , hash_token := fun v => v
  , now := 0
  , now_rfc3339 := str "2026-01-01T00:00:00Z"
  , gen_session_id := str "sid-1"
  , access_token_ttl_seconds := 900
  , refresh_token_ttl_days := 30 }

/-! ## Order lemmas for the embedded string comparison -/

theorem strLt_irrefl (a : Str) : strLt a a = false := by
  induction a with
  | nil => rfl
  | cons c cs ih => simp [strLt, ih]

theorem strLt_asymm : ∀ a b : Str, strLt a b = true → strLt b a = false
  | [], [] => by simp [strLt]
  | [], _ :: _ => by simp [strLt]
  | _ :: _, [] => by simp [strLt]
  | a :: as, b :: bs => by
    simp only [strLt]
    rcases lt_trichotomy a b with hab | hab | hab
    · rw [if_pos hab, if_neg (asymm hab), if_pos hab]
      intro _
      rfl
    · subst hab
      simp only [if_neg (lt_irrefl a)]
      exact strLt_asymm as bs
    · rw [if_neg (asymm hab), if_pos hab]
      intro h
      exact absurd h (by simp)

theorem strLt_total : ∀ a b : Str, strLt a b = true ∨ strLt b a = true ∨ a = b
  | [], [] => by simp
  | [], _ :: _ => by simp [strLt]
  | _ :: _, [] => by simp [strLt]
  | a :: as, b :: bs => by
    rcases lt_trichotomy a b with hab | hab | hab
    · left
      simp [strLt, hab]
    · subst hab
      rcases strLt_total as bs with h | h | h
      · left
        simp [strLt, lt_irrefl, h]
      · right
        left
        simp [strLt, lt_irrefl, h]
      · subst h
        right
        right
        rfl
    · right
      left
      simp [strLt, hab]

/-! ## Claim C3 — RawCredential::validate against CredentialPolicy -/

theorem validate_eval_empty (p : CredentialPolicy) (s : Str) (hs : s = []) :
    (RawCredential.mk s).validate p = .error (.missingRequired (str "secret")) := by
  subst hs
  rfl

theorem validate_eval_short (p : CredentialPolicy) (s : Str) (hs : s ≠ [])
    (hlen : utf8Len s < p.min_length) :
    (RawCredential.mk s).validate p =
      .error (.insufficientStrength (str "minimum length is " ++ natToStr p.min_length)) := by
  unfold RawCredential.validate
  rw [if_neg (by simpa using hs), if_pos hlen]

theorem validate_eval_format (p : CredentialPolicy) (s : Str) (f : Str → Bool) (hs : s ≠ [])
    (hlen : ¬ utf8Len s < p.min_length) (hf : p.format_check = some f) (hfs : f s = false) :
    (RawCredential.mk s).validate p =
      .error (.invalidFormat (str "credential") (str "format check failed")) := by
  unfold RawCredential.validate
  rw [if_neg (by simpa using hs), if_neg hlen, hf]
  simp [hfs]

theorem validate_eval_ok (p : CredentialPolicy) (s : Str) (hs : s ≠ [])
    (hlen : ¬ utf8Len s < p.min_length)
    (hf : p.format_check = none ∨ ∃ f, p.format_check = some f ∧ f s = true) :
    (RawCredential.mk s).validate p = .ok () := by
  unfold RawCredential.validate
  rw [if_neg (by simpa using hs), if_neg hlen]
  rcases hf with hf | ⟨f, hf, hfs⟩ <;> rw [hf]
  · cases h : p.entropy_note <;> simp [h]
  · cases h : p.entropy_note <;> simp [hfs, h]

/-- C3: for every policy `p` and secret `s`, `RawCredential::new(s).validate(p)`
is an error exactly when `s` is empty, shorter (in bytes) than
`p.min_length`, or rejected by a configured format check; the error variant
is `MissingRequired` for an empty secret, `InsufficientStrength` for a
too-short one, `InvalidFormat` for a failing format check; and the entropy
note never affects the result. -/
theorem raw_credential_validate_spec (p : CredentialPolicy) (s : Str) :
    ((∃ e, (RawCredential.mk s).validate p = .error e) ↔
      s = [] ∨ utf8Len s < p.min_length ∨ ∃ f, p.format_check = some f ∧ f s = false)
  ∧ (s = [] → (RawCredential.mk s).validate p = .error (.missingRequired (str "secret")))
  ∧ (s ≠ [] → utf8Len s < p.min_length →
      (RawCredential.mk s).validate p =
        .error (.insufficientStrength (str "minimum length is " ++ natToStr p.min_length)))
  ∧ (∀ f, s ≠ [] → ¬ utf8Len s < p.min_length → p.format_check = some f → f s = false →
      (RawCredential.mk s).validate p =
        .error (.invalidFormat (str "credential") (str "format check failed")))
  ∧ (∀ note, (RawCredential.mk s).validate { p with entropy_note := note } =
      (RawCredential.mk s).validate p) := by
  refine ⟨⟨?_, ?_⟩, validate_eval_empty p s, validate_eval_short p s,
    fun f hs hlen hf hfs => validate_eval_format p s f hs hlen hf hfs, ?_⟩
  · intro ⟨e, he⟩
    by_cases hs : s = []
    · exact Or.inl hs
    by_cases hlen : utf8Len s < p.min_length
    · exact Or.inr (Or.inl hlen)
    by_cases hfmt : ∃ f, p.format_check = some f ∧ f s = false
    · exact Or.inr (Or.inr hfmt)
    · have hok : (RawCredential.mk s).validate p = .ok () := by
        rcases hfc : p.format_check with _ | f
        · exact validate_eval_ok p s hs hlen (Or.inl hfc)
        · rcases hb : f s with _ | _
          · exact absurd ⟨f, hfc, hb⟩ hfmt
          · have harg : p.format_check = none ∨ ∃ g, p.format_check = some g ∧ g s = true :=
              Or.inr ⟨f, hfc, hb⟩
            exact validate_eval_ok p s hs hlen harg
      rw [hok] at he
      cases he
  · intro h
    rcases h with hs | hlen | ⟨f, hf, hfs⟩
    · exact ⟨_, validate_eval_empty p s hs⟩
    · by_cases hs : s = []
      · exact ⟨_, validate_eval_empty p s hs⟩
      · exact ⟨_, validate_eval_short p s hs hlen⟩
    · by_cases hs : s = []
      · exact ⟨_, validate_eval_empty p s hs⟩
      by_cases hlen : utf8Len s < p.min_length
      · exact ⟨_, validate_eval_short p s hs hlen⟩
      · exact ⟨_, validate_eval_format p s f hs hlen hf hfs⟩
  · intro note
    show RawCredential.validate _ _ = RawCredential.validate _ _
    unfold RawCredential.validate
    cases p.format_check <;> cases note <;> cases p.entropy_note <;> simp

/-- Witness for C3 at concrete inputs: the scenario-A policy with
`min_length = 8` rejects `"abc"` with `InsufficientStrength`. -/
theorem raw_credential_validate_spec_witness :
    (RawCredential.mk (str "abc")).validate ⟨8, true, none, none⟩ =
      .error (.insufficientStrength (str "minimum length is 8")) :=
  (raw_credential_validate_spec ⟨8, true, none, none⟩ (str "abc")).2.2.1 (by decide) (by decide)

/-! ## Claim C4 — TokenLifetime temporal semantics -/

/-- C4: for every lifetime `L` and reference time `t`, `is_expired` holds
exactly when `t` is lexicographically at or after `expires_at`;
`is_not_yet_valid` holds exactly when `t` is before `issued_at` or before a
configured `not_before`; `is_temporally_valid` is definitionally the
conjunction of their negations; and a lifetime with `issued_at =
expires_at` is already expired at that exact instant. -/
theorem token_lifetime_temporal_spec (L : TokenLifetime) (t : Str) :
    (L.is_expired t = true ↔ (strLt L.expires_at t = true ∨ L.expires_at = t))
  ∧ (L.is_not_yet_valid t = true ↔
      (strLt t L.issued_at = true ∨ ∃ nb, L.not_before = some nb ∧ strLt t nb = true))
  ∧ (L.is_temporally_valid t = (!L.is_expired t && !L.is_not_yet_valid t))
  ∧ ((TokenLifetime.new t t).is_expired t = true) := by
  refine ⟨⟨?_, ?_⟩, ?_, rfl, ?_⟩
  · intro h
    have hlt : strLt t L.expires_at = false := by
      revert h
      unfold TokenLifetime.is_expired strGe
      cases strLt t L.expires_at <;> simp
    rcases strLt_total L.expires_at t with h' | h' | h'
    · exact Or.inl h'
    · rw [h'] at hlt
      cases hlt
    · exact Or.inr h'
  · intro h
    unfold TokenLifetime.is_expired strGe
    rcases h with h | h
    · rw [strLt_asymm _ _ h]
      rfl
    · rw [h, strLt_irrefl]
      rfl
  · unfold TokenLifetime.is_not_yet_valid
    cases hnb : L.not_before with
    | none =>
      by_cases h1 : strLt t L.issued_at = true <;> simp [h1]
    | some nb =>
      by_cases h1 : strLt t L.issued_at = true <;> by_cases h2 : strLt t nb = true <;>
        simp [h1, h2]
  · unfold TokenLifetime.new TokenLifetime.is_expired strGe
    simp [strLt_irrefl]

/-! ## Evaluation lemmas for AuthenticateUser::execute -/

theorem execute_not_found_eval (env : AuthEnv) (input : AuthenticateUserInput)
    (hfind : env.find_by_identifier input.identifier = none) :
    AuthenticateUser.execute env input =
      (.error (.authentication (.userNotFound (str "identifier not found"))), []) := by
  unfold AuthenticateUser.execute
  rw [hfind]

theorem execute_verify_failed_eval (env : AuthEnv) (input : AuthenticateUserInput)
    (user : UserIdentity)
    (hfind : env.find_by_identifier input.identifier = some user)
    (hnolock : lockCheckTs env.now (env.get_by_user_id user.id) = none)
    (hpw : passwordValidOf env input user = false) :
    AuthenticateUser.execute env input =
      (.error (.authentication (.userNotFound (str "invalid credentials"))),
       verifyTraceOf env input user
         ++ [.updateFailedAttempts user.id (newAttemptsOf env user)]
         ++ (if env.max_attempts ≤ newAttemptsOf env user then
               [.lockUntil user.id (env.addMinutes env.now env.lockout_duration_minutes)]
             else [])) := by
  unfold AuthenticateUser.execute
  rw [hfind]
  simp only [hnolock]
  unfold passwordValidOf at hpw
  unfold verifyTraceOf newAttemptsOf
  cases hc : env.get_by_user_id user.id with
  | none =>
    rw [hc] at hpw
    simp [hc]
  | some cred =>
    rw [hc] at hpw
    have hpw' : env.verify input.password cred = false := hpw
    simp [hc, hpw']

theorem execute_verify_ok_eval (env : AuthEnv) (input : AuthenticateUserInput)
    (user : UserIdentity)
    (hfind : env.find_by_identifier input.identifier = some user)
    (hnolock : lockCheckTs env.now (env.get_by_user_id user.id) = none)
    (hpw : passwordValidOf env input user = true) :
    AuthenticateUser.execute env input =
      (.ok { user := user },
       verifyTraceOf env input user ++ [.updateFailedAttempts user.id 0]) := by
  unfold AuthenticateUser.execute
  rw [hfind]
  simp only [hnolock]
  unfold passwordValidOf at hpw
  unfold verifyTraceOf
  cases hc : env.get_by_user_id user.id with
  | none =>
    rw [hc] at hpw
    exact absurd hpw (by simp)
  | some cred =>
    rw [hc] at hpw
    have hpw' : env.verify input.password cred = true := hpw
    simp [hc, hpw']

/-! ## Claim C1 — AuthenticateUser attempt tracking (amended) -/

/-- Counterexample to C1 as stated: with a stored failed-attempt count at
the `u32` maximum `4294967295` (and `max_attempts = 3`), a failed
verification calls `update_failed_attempts` with `0` — the wrapped `u32`
increment — rather than with the previous count plus one (`4294967296`),
and sets no lock even though the claimed new count would have reached
`max_attempts`. -/
theorem authenticate_user_attempt_tracking_cex :
    AuthenticateUser.execute authWrapEnv authInput =
      (.error (.authentication (.userNotFound (str "invalid credentials"))),
       [.verify (str "pw") ⟨str "h", 4294967295, none⟩,
        .updateFailedAttempts (str "u1") 0])
  ∧ (0 : Nat) ≠ 4294967295 + 1 := by
  constructor
  · decide
  · decide

/-- C1 (amended): when the user is found and the account is not locked, a
failed verification records the previous failed-attempt count plus one in
wrapping `u32` arithmetic (one when no credential exists), locks the
account until `now + lockout_duration_minutes` exactly when that new count
is at least `max_attempts`, and returns an `AuthenticationError`; a
successful verification records `0` and returns the `UserIdentity`. -/
theorem authenticate_user_attempt_tracking
    (env : AuthEnv) (input : AuthenticateUserInput) (user : UserIdentity)
    (hfind : env.find_by_identifier input.identifier = some user)
    (hnolock : lockCheckTs env.now (env.get_by_user_id user.id) = none) :
    (passwordValidOf env input user = false →
      AuthenticateUser.execute env input =
        (.error (.authentication (.userNotFound (str "invalid credentials"))),
         verifyTraceOf env input user
           ++ [.updateFailedAttempts user.id (newAttemptsOf env user)]
           ++ (if env.max_attempts ≤ newAttemptsOf env user then
                 [.lockUntil user.id (env.addMinutes env.now env.lockout_duration_minutes)]
               else [])))
  ∧ (passwordValidOf env input user = true →
      AuthenticateUser.execute env input =
        (.ok { user := user },
         verifyTraceOf env input user ++ [.updateFailedAttempts user.id 0])) :=
  ⟨execute_verify_failed_eval env input user hfind hnolock,
   execute_verify_ok_eval env input user hfind hnolock⟩

/-- Witness for C1 at concrete inputs: previous count 2, `max_attempts`
3 — the third failure records 3 and sets the lock; and a successful
verification against the same record resets the count to 0. -/
theorem authenticate_user_attempt_tracking_witness :
    (AuthenticateUser.execute authFailEnv authInput =
      (.error (.authentication (.userNotFound (str "invalid credentials"))),
       verifyTraceOf authFailEnv authInput ⟨str "u1"⟩
         ++ [.updateFailedAttempts (str "u1") (newAttemptsOf authFailEnv ⟨str "u1"⟩)]
         ++ (if authFailEnv.max_attempts ≤ newAttemptsOf authFailEnv ⟨str "u1"⟩ then
               [.lockUntil (str "u1")
                 (authFailEnv.addMinutes authFailEnv.now authFailEnv.lockout_duration_minutes)]
             else [])))
  ∧ (AuthenticateUser.execute authOkEnv authInput =
      (.ok { user := ⟨str "u1"⟩ },
       verifyTraceOf authOkEnv authInput ⟨str "u1"⟩ ++ [.updateFailedAttempts (str "u1") 0])) :=
  ⟨(authenticate_user_attempt_tracking authFailEnv authInput ⟨str "u1"⟩
      (by decide) (by decide)).1 (by decide),
   (authenticate_user_attempt_tracking authOkEnv authInput ⟨str "u1"⟩
      (by decide) (by decide)).2 (by decide)⟩

/-! ## Claim C2 — active lock short-circuits authentication -/

/-- C2: when the user is found and the stored credential carries a
`locked_until` strictly in the future, `execute` fails with
`AccountLocked` and performs no password verification and no credential
mutation (the event trace is empty), for every password hasher — in
particular when the supplied password is the correct one. -/
theorem account_locked_short_circuit
    (env : AuthEnv) (input : AuthenticateUserInput) (user : UserIdentity)
    (cred : StoredCredential) (lu : Str)
    (hfind : env.find_by_identifier input.identifier = some user)
    (hcred : env.get_by_user_id user.id = some cred)
    (hlu : cred.locked_until = some lu)
    (hfut : strLt env.now lu = true) :
    AuthenticateUser.execute env input =
      (.error (.authentication (.accountLocked (str "account locked until " ++ lu))), []) := by
  unfold AuthenticateUser.execute
  rw [hfind]
  have hlock : lockCheckTs env.now (env.get_by_user_id user.id) = some lu := by
    unfold lockCheckTs
    simp [hcred, hlu, hfut]
  simp only [hlock]

/-- Witness for C2 at concrete inputs: the lock `2026-01-01T00:15:00Z` is
after `now = 2026-01-01T00:00:00Z`, and the environment's hasher would
have accepted the password. -/
theorem account_locked_short_circuit_witness :
    AuthenticateUser.execute authLockedEnv authInput =
      (.error (.authentication (.accountLocked
        (str "account locked until " ++ str "2026-01-01T00:15:00Z"))), [])
  ∧ authLockedEnv.verify (str "pw") ⟨str "h", 3, some (str "2026-01-01T00:15:00Z")⟩ = true :=
  ⟨account_locked_short_circuit authLockedEnv authInput ⟨str "u1"⟩
      ⟨str "h", 3, some (str "2026-01-01T00:15:00Z")⟩ (str "2026-01-01T00:15:00Z")
      (by decide) (by decide) (by decide) (by decide),
   by decide⟩

/-! ## Claim C8 — user-not-found and wrong-password return the same variant -/

/-- C8: a call failing because the identifier matches no user and a call
failing because the password does not verify both return the
`UserNotFound` variant of `AuthenticationError`, so the returned variant
does not distinguish the two outcomes. -/
theorem authenticate_error_variant_conflation
    (env1 : AuthEnv) (input1 : AuthenticateUserInput)
    (h1 : env1.find_by_identifier input1.identifier = none)
    (env2 : AuthEnv) (input2 : AuthenticateUserInput) (user2 : UserIdentity)
    (h2 : env2.find_by_identifier input2.identifier = some user2)
    (h3 : lockCheckTs env2.now (env2.get_by_user_id user2.id) = none)
    (h4 : passwordValidOf env2 input2 user2 = false) :
    isUserNotFound (AuthenticateUser.execute env1 input1).1 = true
  ∧ isUserNotFound (AuthenticateUser.execute env2 input2).1 = true := by
  constructor
  · rw [execute_not_found_eval env1 input1 h1]
    rfl
  · rw [execute_verify_failed_eval env2 input2 user2 h2 h3 h4]
    rfl

/-- Witness for C8 at concrete inputs: no user for the identifier on one
side, a wrong password for the existing user `u1` on the other. -/
theorem authenticate_error_variant_conflation_witness :
    isUserNotFound (AuthenticateUser.execute authMissingEnv authInput).1 = true
  ∧ isUserNotFound (AuthenticateUser.execute authFailEnv authInput).1 = true :=
  authenticate_error_variant_conflation authMissingEnv authInput (by decide)
    authFailEnv authInput ⟨str "u1"⟩ (by decide) (by decide) (by decide)

/-! ## Claim C5 — RefreshSession rotation behavior (amended) -/

/-- Counterexample to C5 as stated: with rotation enabled and a token
service whose `issue_refresh_token` returns the value `rt0`, a successful
call whose input refresh token also has value `rt0` returns a rotated
refresh token equal to the input token — the core never compares the two
values, so "differs from the input" is not guaranteed by
`RefreshSession::execute` itself. -/
theorem refresh_session_rotation_cex :
    (RefreshSession.execute refreshRotEnv refreshInput0).1 =
      .ok { access_token := Token.mk (str "acc"),
            refresh_token := some (Token.mk (str "rt0")),
            token_type := str "Bearer", expires_in := 900 }
  ∧ refreshInput0.refresh_token = Token.mk (str "rt0") := by
  constructor
  · decide
  · decide

/-- C5 (amended): on a successful call, with rotation disabled the output's
`refresh_token` is `None` and exactly one access token is issued (the
trace is a single `issue_access_token` call); with rotation enabled the
output's `refresh_token` is `Some` of exactly the token returned by
`TokenService::issue_refresh_token` — which differs from the input token
whenever the service issues a distinct value, though the core itself does
not enforce the inequality; in both cases the output carries token type
`Bearer` and `expires_in` equal to the configured access-token TTL. -/
theorem refresh_session_rotation_spec
    (env : RefreshEnv) (input : RefreshSessionInput) (claims user_id : Str) (sess : Session)
    (hv : env.validate_refresh_token input.refresh_token = .ok claims)
    (hu : RefreshSession.extract_user_id claims = some user_id)
    (hs : env.find_by_refresh_token_hash (env.hash_token input.refresh_token.value) = some sess) :
    (env.rotate_refresh_tokens = false →
      RefreshSession.execute env input =
        (.ok { access_token :=
                 env.issue_access_token user_id (RefreshSession.build_access_claims env user_id),
               refresh_token := none, token_type := str "Bearer",
               expires_in := env.access_token_ttl_seconds },
         [.issueAccess user_id (RefreshSession.build_access_claims env user_id)]))
  ∧ (env.rotate_refresh_tokens = true →
      RefreshSession.execute env input =
        (.ok { access_token :=
                 env.issue_access_token user_id (RefreshSession.build_access_claims env user_id),
               refresh_token := some (env.issue_refresh_token user_id claims),
               token_type := str "Bearer",
               expires_in := env.access_token_ttl_seconds },
         [.issueAccess user_id (RefreshSession.build_access_claims env user_id),
          .issueRefresh user_id claims])) := by
  constructor
  · intro hrot
    unfold RefreshSession.execute
    rw [hv]
    simp [hu, hs, hrot]
  · intro hrot
    unfold RefreshSession.execute
    rw [hv]
    simp [hu, hs, hrot]

/-- Witness for C5 at concrete inputs: the same environment with rotation
disabled returns no refresh token and issues exactly one access token;
with rotation enabled it returns the token the service issued. -/
theorem refresh_session_rotation_spec_witness :
    (RefreshSession.execute refreshNoRotEnv refreshInput0 =
      (.ok { access_token :=
               refreshNoRotEnv.issue_access_token (str "u1")
                 (RefreshSession.build_access_claims refreshNoRotEnv (str "u1")),
             refresh_token := none, token_type := str "Bearer",
             expires_in := refreshNoRotEnv.access_token_ttl_seconds },
       [.issueAccess (str "u1") (RefreshSession.build_access_claims refreshNoRotEnv (str "u1"))]))
  ∧ (RefreshSession.execute refreshRotEnv refreshInput0 =
      (.ok { access_token :=
               refreshRotEnv.issue_access_token (str "u1")
                 (RefreshSession.build_access_claims refreshRotEnv (str "u1")),
             refresh_token := some (refreshRotEnv.issue_refresh_token (str "u1") refreshClaims0),
             token_type := str "Bearer",
             expires_in := refreshRotEnv.access_token_ttl_seconds },
       [.issueAccess (str "u1") (RefreshSession.build_access_claims refreshRotEnv (str "u1")),
        .issueRefresh (str "u1") refreshClaims0])) :=
  ⟨(refresh_session_rotation_spec refreshNoRotEnv refreshInput0 refreshClaims0 (str "u1")
      Session.mk (by decide) (by decide) rfl).1 (by decide),
   (refresh_session_rotation_spec refreshRotEnv refreshInput0 refreshClaims0 (str "u1")
      Session.mk (by decide) (by decide) rfl).2 (by decide)⟩

/-! ## Claim C6 — ValidateAccessToken reports past expiry as data -/

/-- C6: when the token service accepts the token, the declared type is
`access`, and a parsed `exp` lies strictly in the past, `execute` returns
`Ok` with `valid = false` and reason `token expired` — never a
`CoreError`. -/
theorem validate_access_token_expired
    (env : ValidateEnv) (input : ValidateAccessTokenInput) (claims : Str) (exp : Int)
    (hv : env.validate_access_token input.access_token = .ok claims)
    (hty : ValidateAccessToken.extract_token_type claims = some (str "access"))
    (hexp : ValidateAccessToken.extract_exp claims = some exp)
    (hpast : exp < env.now) :
    ValidateAccessToken.execute env input =
      .ok { valid := false, user_id := ValidateAccessToken.extract_user_id claims,
            session_id := ValidateAccessToken.extract_session_id claims,
            reason := some (str "token expired") } := by
  unfold ValidateAccessToken.execute
  rw [hv]
  have hexpd : ValidateAccessToken.is_expired claims env.now = true := by
    unfold ValidateAccessToken.is_expired
    rw [hexp]
    simp [hpast]
  simp [hty, hexpd]

/-- Witness for C6 at concrete inputs: claims with `exp = 100` checked at
`now = 200`. -/
theorem validate_access_token_expired_witness :
    ValidateAccessToken.execute validateExpiredEnv ⟨Token.mk (str "t")⟩ =
      .ok { valid := false,
            user_id := ValidateAccessToken.extract_user_id
              (str "\x7b\"sub\":\"u1\",\"type\":\"access\",\"exp\":100\x7d"),
            session_id := ValidateAccessToken.extract_session_id
              (str "\x7b\"sub\":\"u1\",\"type\":\"access\",\"exp\":100\x7d"),
            reason := some (str "token expired") } :=
  validate_access_token_expired validateExpiredEnv ⟨Token.mk (str "t")⟩
    (str "\x7b\"sub\":\"u1\",\"type\":\"access\",\"exp\":100\x7d") 100
    (by decide) (by decide) (by decide) (by decide)

/-! ## Claim C10 — missing or unparseable exp fails closed -/

/-- C10: when the token service accepts the token and the declared type is
`access` but no `exp` value can be extracted and parsed from the claims,
the token is treated as expired: `execute` returns `Ok` with
`valid = false` and reason `token expired`. -/
theorem validate_access_token_missing_exp
    (env : ValidateEnv) (input : ValidateAccessTokenInput) (claims : Str)
    (hv : env.validate_access_token input.access_token = .ok claims)
    (hty : ValidateAccessToken.extract_token_type claims = some (str "access"))
    (hexp : ValidateAccessToken.extract_exp claims = none) :
    ValidateAccessToken.execute env input =
      .ok { valid := false, user_id := ValidateAccessToken.extract_user_id claims,
            session_id := ValidateAccessToken.extract_session_id claims,
            reason := some (str "token expired") } := by
  unfold ValidateAccessToken.execute
  rw [hv]
  have hexpd : ValidateAccessToken.is_expired claims env.now = true := by
    unfold ValidateAccessToken.is_expired
    rw [hexp]
  simp [hty, hexpd]

/-- Witness for C10 at concrete inputs: well-typed claims with no `exp`
field at all. -/
theorem validate_access_token_missing_exp_witness :
    ValidateAccessToken.execute validateNoExpEnv ⟨Token.mk (str "t")⟩ =
      .ok { valid := false,
            user_id := ValidateAccessToken.extract_user_id
              (str "\x7b\"sub\":\"u1\",\"type\":\"access\"\x7d"),
            session_id := ValidateAccessToken.extract_session_id
              (str "\x7b\"sub\":\"u1\",\"type\":\"access\"\x7d"),
            reason := some (str "token expired") } :=
  validate_access_token_missing_exp validateNoExpEnv ⟨Token.mk (str "t")⟩
    (str "\x7b\"sub\":\"u1\",\"type\":\"access\"\x7d")
    (by decide) (by decide) (by decide)

/-! ## Claim C7 — RevokeSession case analysis -/

/-- C7: with neither input present, `execute` returns an `InvariantError`;
with a `session_id` present it calls `SessionRepository::revoke_session`
on that id and returns `revoked = true` with that id — for every
repository state, so also for an already-revoked session (idempotence);
with only a `refresh_token_hash` present it returns an
`AuthenticationError` and revokes nothing (the revocation trace is
empty). -/
theorem revoke_session_case_analysis (env : RevokeEnv) (input : RevokeSessionInput) :
    (input.session_id = none → input.refresh_token_hash = none →
      RevokeSession.execute env input =
        (.error (.invariant (.violated
          (str "either session_id or refresh_token_hash must be provided"))), []))
  ∧ (∀ sid, input.session_id = some sid →
      RevokeSession.execute env input =
        (.ok { revoked := true, session_id := some sid }, [.revokeSession sid]))
  ∧ (∀ hash, input.session_id = none → input.refresh_token_hash = some hash →
      isAuthenticationError (RevokeSession.execute env input).1 = true
      ∧ (RevokeSession.execute env input).2 = []) := by
  refine ⟨?_, ?_, ?_⟩
  · intro h1 h2
    simp [RevokeSession.execute, h1, h2]
  · intro sid h1
    simp [RevokeSession.execute, h1]
  · intro hash h1 h2
    cases hf : env.find_by_refresh_token_hash hash <;>
      simp [RevokeSession.execute, h1, h2, hf, isAuthenticationError]

/-- Witness for C7 at concrete inputs: all three input shapes against the
concrete repository. -/
theorem revoke_session_case_analysis_witness :
    (RevokeSession.execute revokeEnv0 ⟨none, none⟩ =
      (.error (.invariant (.violated
        (str "either session_id or refresh_token_hash must be provided"))), []))
  ∧ (RevokeSession.execute revokeEnv0 ⟨some (str "s1"), none⟩ =
      (.ok { revoked := true, session_id := some (str "s1") }, [.revokeSession (str "s1")]))
  ∧ (isAuthenticationError (RevokeSession.execute revokeEnv0 ⟨none, some (str "h1")⟩).1 = true
      ∧ (RevokeSession.execute revokeEnv0 ⟨none, some (str "h1")⟩).2 = []) :=
  ⟨(revoke_session_case_analysis revokeEnv0 ⟨none, none⟩).1 rfl rfl,
   (revoke_session_case_analysis revokeEnv0 ⟨some (str "s1"), none⟩).2.1 (str "s1") rfl,
   (revoke_session_case_analysis revokeEnv0 ⟨none, some (str "h1")⟩).2.2 (str "h1") rfl rfl⟩

/-! ## Claim C9 — IssueSession generates the session id after persisting -/

/-- C9: the event trace of `IssueSession::execute` calls
`SessionRepository::create_session` with only the user, the refresh-token
hash, and the metadata string, and generates the session id strictly
afterwards (it is the fourth and last event, `create_session` the third);
the returned `session_id` is the generated value, and changing the
generated value leaves the first three events — including the persisted
session record — unchanged. -/
theorem issue_session_sid_generated_after_create
    (env : IssueEnv) (input : IssueSessionInput) (sid' : Str) :
    (IssueSession.execute env input).2 =
      [.issueAccess input.user.id (IssueSession.build_access_claims env input.user),
       .issueRefresh input.user.id (IssueSession.build_refresh_claims env input.user),
       .createSession input.user
         (env.hash_token (env.issue_refresh_token input.user.id
           (IssueSession.build_refresh_claims env input.user)).value)
         (IssueSession.build_session_metadata env input),
       .genSessionId env.gen_session_id]
  ∧ ((IssueSession.execute env input).1.toOption.map IssueSessionOutput.session_id =
      some env.gen_session_id)
  ∧ ((IssueSession.execute { env with gen_session_id := sid' } input).2.take 3 =
      (IssueSession.execute env input).2.take 3) :=
  ⟨rfl, rfl, rfl⟩

end AgoraAuth
